import Mathlib

/-!
Verification of the wicker schema module (`wicker/schema/schema.py`).

The Python classes are embedded shallowly:
* field objects become the inductive type `SchemaField`;
* fallible `__init__` constructors become `mk*` functions returning
  `Except PyError SchemaField`;
* the two exception types the module raises (`ValueError` from the
  field-name check, `WickerSchemaException` from all other validation)
  become the two constructors of `PyError`;
* Python's insertion-ordered `dict` becomes an association list with
  `dictInsert` / `lookupDict` reproducing dict update and lookup;
* `re.match(r"^[a-zA-Z][0-9a-zA-Z_]*$", name)` becomes `pyNameMatch`,
  including Python's behaviour of `$` also matching just before one
  trailing newline.
-/

set_option maxRecDepth 10000

namespace Wicker

/-- ASCII alphabetic test, the character class `[a-zA-Z]` of the source regex. -/
def isAsciiAlpha (c : Char) : Bool :=
  (Char.ofNat 97 ≤ c && c ≤ Char.ofNat 122) || (Char.ofNat 65 ≤ c && c ≤ Char.ofNat 90)

/-- The character class `[0-9a-zA-Z_]` of the source regex. -/
def isNameTailChar (c : Char) : Bool :=
  (Char.ofNat 48 ≤ c && c ≤ Char.ofNat 57) || isAsciiAlpha c || c == Char.ofNat 95

/-- The name grammar as the spec states it: first character alphabetic,
remainder alphanumeric or underscore, anchored to the whole string. -/
def specNameGrammar (s : String) : Bool :=
  match s.data with
  | [] => false
  | c :: rest => isAsciiAlpha c && rest.all isNameTailChar

/-- `re.match(r"^[a-zA-Z][0-9a-zA-Z_]*$", name)` as Python evaluates it:
`$` matches at the end of the string or just before a newline that is the
final character, so a single trailing newline is accepted. -/
def pyNameMatch (s : String) : Bool :=
  specNameGrammar s ||
    (match s.data.getLast? with
     | some c => c == Char.ofNat 10 && specNameGrammar (String.mk s.data.dropLast)
     | none => false)

/-- The two exception types raised by the module: `ValueError` from the
field-name check in `SchemaField.__init__`, `WickerSchemaException`
(the spec's `SchemaValidationError`) from every other validation. -/
inductive PyError where
  | valueError (msg : String)
  | wickerSchemaException (msg : String)
deriving DecidableEq

/-- Whether an error is a `WickerSchemaException`. -/
def PyError.isWicker : PyError → Bool
  | .wickerSchemaException _ => true
  | .valueError _ => false

/-- A single-quote character as a string, used to rebuild the source messages. -/
def sq : String := "\x27"

/-- Message of the `ValueError` raised by `SchemaField.__init__` (two adjacent
Python string literals concatenated). -/
def nameErrorMsg : String :=
  "Schema name must contain only alphanumeric characters or underscores and cannot start with a number or underscore"

/-- Message of the `WickerSchemaException` raised by `ObjectField.__init__`;
the source string lacks the `f` prefix, so the braces are literal text. -/
def codecEmptyMsg : String :=
  "Codec names must be non-empty. Encountered at field=\x7bname\x7d"

/-- Message raised when `primary_keys` is empty and the escape flag is unset. -/
def pkEmptyMsg : String :=
  "The primary_keys attribute can not be empty."

/-- Message raised when a primary key is not among the schema columns. -/
def pkNotFoundMsg (key : String) : String :=
  "Primary key " ++ sq ++ key ++ sq ++ " not found in the schema" ++ sq ++ "s fields."

/-- Message raised when a primary-key field is not required. -/
def pkNotRequiredMsg (key : String) : String :=
  "All primary key fields must have the " ++ sq ++ "required" ++ sq ++ " tag, but " ++ sq ++ key ++ sq ++ " doesn" ++ sq ++ "t have it."

/-- Message raised when a primary-key field has an unsupported type. -/
def pkBadTypeMsg (key : String) : String :=
  sq ++ key ++ sq ++ " cannot be a primary key because it is not of type int, long, string or bool."

/-- Modelled from the spec: the external `codecs.Codec` interface is not under
`src/`; the spec describes it as an opaque encoder identified by
`get_codec_name() -> non-empty string` and `save_codec_to_dict()` whose
serialization (`json.dumps`) we keep as the opaque string `codecParams`.
Codec equality is structural, per the spec sentence "Object: codecs equal". -/
structure Codec where
  codecName : String
  codecParams : String
deriving DecidableEq

/-- The field algebra of `schema.py`: one constructor per concrete
`SchemaField` subclass.  `ArrayField` stores only its element and its own
`required` flag because `ArrayField.__init__` copies name, description and
tags from the element; `ObjectField` synthesizes its tags from its codec. -/
inductive SchemaField where
  | intField (name description : String) (required : Bool) (customFieldTags : List (String × String))
  | longField (name description : String) (required : Bool) (customFieldTags : List (String × String))
  | stringField (name description : String) (required : Bool) (customFieldTags : List (String × String))
  | boolField (name description : String) (required : Bool) (customFieldTags : List (String × String))
  | floatField (name description : String) (required : Bool) (customFieldTags : List (String × String))
  | doubleField (name description : String) (required : Bool) (customFieldTags : List (String × String))
  | recordField (name description : String) (required : Bool) (customFieldTags : List (String × String)) (fields : List SchemaField)
  | arrayField (elementField : SchemaField) (required : Bool)
  | objectField (name description : String) (required : Bool) (codec : Codec) (isHeavy : Bool)

/-- `self.name`; for `ArrayField` the name copied from the element. -/
def fieldName : SchemaField → String
  | .intField n _ _ _ => n
  | .longField n _ _ _ => n
  | .stringField n _ _ _ => n
  | .boolField n _ _ _ => n
  | .floatField n _ _ _ => n
  | .doubleField n _ _ _ => n
  | .recordField n _ _ _ _ => n
  | .arrayField e _ => fieldName e
  | .objectField n _ _ _ _ => n

/-- `self.description`; for `ArrayField` copied from the element. -/
def fieldDescription : SchemaField → String
  | .intField _ d _ _ => d
  | .longField _ d _ _ => d
  | .stringField _ d _ _ => d
  | .boolField _ d _ _ => d
  | .floatField _ d _ _ => d
  | .doubleField _ d _ _ => d
  | .recordField _ d _ _ _ => d
  | .arrayField e _ => fieldDescription e
  | .objectField _ d _ _ _ => d

/-- `self.required`. -/
def fieldRequired : SchemaField → Bool
  | .intField _ _ r _ => r
  | .longField _ _ r _ => r
  | .stringField _ _ r _ => r
  | .boolField _ _ r _ => r
  | .floatField _ _ r _ => r
  | .doubleField _ _ r _ => r
  | .recordField _ _ r _ _ => r
  | .arrayField _ r => r
  | .objectField _ _ r _ _ => r

/-- `self.custom_field_tags`: `ObjectField` synthesizes the three tags of
`ObjectField.__init__` from its codec; `ArrayField` copies the element's. -/
def fieldCustomTags : SchemaField → List (String × String)
  | .intField _ _ _ t => t
  | .longField _ _ _ t => t
  | .stringField _ _ _ t => t
  | .boolField _ _ _ t => t
  | .floatField _ _ _ t => t
  | .doubleField _ _ _ t => t
  | .recordField _ _ _ t _ => t
  | .arrayField e _ => fieldCustomTags e
  | .objectField _ _ _ c _ =>
      [("_l5ml_metatype", "object"), ("_codec_params", c.codecParams), ("_codec_name", c.codecName)]

/-- `is_heavy_pointer`: the base-class property returns `False` and only
`ObjectField` overrides it with its stored flag. -/
def isHeavyPointer : SchemaField → Bool
  | .objectField _ _ _ _ h => h
  | _ => false

/-- Index of the concrete Python class of a field, used to state that
fields of different variants are never equal. -/
def variantTag : SchemaField → Nat
  | .intField _ _ _ _ => 0
  | .longField _ _ _ _ => 1
  | .stringField _ _ _ _ => 2
  | .boolField _ _ _ _ => 3
  | .floatField _ _ _ _ => 4
  | .doubleField _ _ _ _ => 5
  | .recordField _ _ _ _ _ => 6
  | .arrayField _ _ => 7
  | .objectField _ _ _ _ _ => 8

/-- One character of Python `repr` of a string with quote character `q`:
backslash, newline, carriage return, tab and the quote itself are escaped.
(Other control characters, which no validated field name can contain, are
kept verbatim.) -/
def pyCharReprIn (q : Char) (c : Char) : String :=
  if c == Char.ofNat 92 then String.mk [Char.ofNat 92, Char.ofNat 92]
  else if c == Char.ofNat 10 then String.mk [Char.ofNat 92, Char.ofNat 110]
  else if c == Char.ofNat 13 then String.mk [Char.ofNat 92, Char.ofNat 114]
  else if c == Char.ofNat 9 then String.mk [Char.ofNat 92, Char.ofNat 116]
  else if c == q then String.mk [Char.ofNat 92, c]
  else String.mk [c]

/-- Python `repr` of a string: single quotes unless the string contains a
single quote and no double quote. -/
def pyStrRepr (s : String) : String :=
  let q := if s.data.contains (Char.ofNat 39) && !(s.data.contains (Char.ofNat 34))
           then Char.ofNat 34 else Char.ofNat 39
  String.mk [q] ++ String.join (s.data.map (pyCharReprIn q)) ++ String.mk [q]

/-- Python `repr`/f-string rendering of a list of strings. -/
def pyReprStrList (l : List String) : String :=
  "[" ++ String.intercalate ", " (l.map pyStrRepr) ++ "]"

/-- The message of `RecordField.__init__`: the f-string interpolates the
`repr` of the list of names of the heavy-pointer children. -/
def heavyPointerMsg (fields : List SchemaField) : String :=
  "Heavy pointer fields cannot be nested in a RecordField: " ++
    pyReprStrList ((fields.filter isHeavyPointer).map fieldName)

/-- The name check at the top of `SchemaField.__init__`. -/
def checkFieldName (name : String) : Except PyError Unit :=
  if pyNameMatch name then Except.ok () else Except.error (PyError.valueError nameErrorMsg)

/-- `IntField(name, description, required, custom_field_tags)`. -/
def mkIntField (name description : String) (required : Bool) (customFieldTags : List (String × String)) : Except PyError SchemaField :=
  match checkFieldName name with
  | .error e => .error e
  | .ok _ => .ok (.intField name description required customFieldTags)

/-- `LongField(...)`. -/
def mkLongField (name description : String) (required : Bool) (customFieldTags : List (String × String)) : Except PyError SchemaField :=
  match checkFieldName name with
  | .error e => .error e
  | .ok _ => .ok (.longField name description required customFieldTags)

/-- `StringField(...)`. -/
def mkStringField (name description : String) (required : Bool) (customFieldTags : List (String × String)) : Except PyError SchemaField :=
  match checkFieldName name with
  | .error e => .error e
  | .ok _ => .ok (.stringField name description required customFieldTags)

/-- `BoolField(...)`. -/
def mkBoolField (name description : String) (required : Bool) (customFieldTags : List (String × String)) : Except PyError SchemaField :=
  match checkFieldName name with
  | .error e => .error e
  | .ok _ => .ok (.boolField name description required customFieldTags)

/-- `FloatField(...)`. -/
def mkFloatField (name description : String) (required : Bool) (customFieldTags : List (String × String)) : Except PyError SchemaField :=
  match checkFieldName name with
  | .error e => .error e
  | .ok _ => .ok (.floatField name description required customFieldTags)

/-- `DoubleField(...)`. -/
def mkDoubleField (name description : String) (required : Bool) (customFieldTags : List (String × String)) : Except PyError SchemaField :=
  match checkFieldName name with
  | .error e => .error e
  | .ok _ => .ok (.doubleField name description required customFieldTags)

/-- `RecordField.__init__`: runs the base-class name check first (super
call on line 165), then rejects heavy-pointer direct children unless
`top_level` is set. -/
def mkRecordField (name : String) (fields : List SchemaField) (description : String) (required : Bool) (customFieldTags : List (String × String)) (topLevel : Bool) : Except PyError SchemaField :=
  match checkFieldName name with
  | .error e => .error e
  | .ok _ =>
    if !topLevel && fields.any isHeavyPointer then
      .error (.wickerSchemaException (heavyPointerMsg fields))
    else
      .ok (.recordField name description required customFieldTags fields)

/-- `ArrayField.__init__`: re-runs the base-class name check on the
element's name (everything else is copied from the element). -/
def mkArrayField (elementField : SchemaField) (required : Bool) : Except PyError SchemaField :=
  match checkFieldName (fieldName elementField) with
  | .error e => .error e
  | .ok _ => .ok (.arrayField elementField required)

/-- `ObjectField.__init__`: rejects an empty codec name before the base-class
name check runs. -/
def mkObjectField (name : String) (codec : Codec) (description : String) (required : Bool) (isHeavy : Bool) : Except PyError SchemaField :=
  if codec.codecName = "" then
    .error (.wickerSchemaException codecEmptyMsg)
  else
    match checkFieldName name with
    | .error e => .error e
    | .ok _ => .ok (.objectField name description required codec isHeavy)

/-- The reserved tag under which `DatasetSchema` stores its primary keys. -/
def PRIMARY_KEYS_TAG : String := "_primary_keys"

/-- Modelled from the spec boundary: `json.dumps` of a list of strings
(escaping omitted; no claim inspects the serialized value). -/
def jsonDumpsStrList (l : List String) : String :=
  "[" ++ String.intercalate ", " (l.map (fun s => "\"" ++ s ++ "\"")) ++ "]"

/-- One insertion into a Python `dict` kept as an insertion-ordered
association list: an existing key keeps its position and gets the new
value, a fresh key is appended. -/
def dictInsert : List (String × SchemaField) → String → SchemaField → List (String × SchemaField)
  | [], k, v => [(k, v)]
  | (k2, v2) :: rest, k, v =>
      if k2 = k then (k2, v) :: rest else (k2, v2) :: dictInsert rest k v

/-- Python `dict.get`. -/
def lookupDict : List (String × SchemaField) → String → Option SchemaField
  | [], _ => none
  | (k2, v) :: rest, k => if k2 = k then some v else lookupDict rest k

/-- `self._columns = {f.name: f for f in fields}`. -/
def buildColumns (fields : List SchemaField) : List (String × SchemaField) :=
  fields.foldl (fun d f => dictInsert d (fieldName f) f) []

/-- `isinstance(field, t) for t in [IntField, LongField, StringField, BoolField]`. -/
def isPrimaryKeyType : SchemaField → Bool
  | .intField _ _ _ _ => true
  | .longField _ _ _ _ => true
  | .stringField _ _ _ _ => true
  | .boolField _ _ _ _ => true
  | _ => false

/-- The `for key in self.primary_keys` loop of `_validate_schema`: per key,
existence, requiredness and type are checked in that order, raising at the
first failure. -/
def validatePrimaryKeys (cols : List (String × SchemaField)) : List String → Except PyError Unit
  | [] => .ok ()
  | key :: rest =>
    match lookupDict cols key with
    | none => .error (.wickerSchemaException (pkNotFoundMsg key))
    | some field =>
      if !(fieldRequired field) then
        .error (.wickerSchemaException (pkNotRequiredMsg key))
      else if !(isPrimaryKeyType field) then
        .error (.wickerSchemaException (pkBadTypeMsg key))
      else
        validatePrimaryKeys cols rest

/-- `DatasetSchema._validate_schema`: the emptiness check guarded by the
escape flag, then the per-key loop. -/
def validateSchema (cols : List (String × SchemaField)) (primaryKeys : List String) (allowEmptyPrimaryKeys : Bool) : Except PyError Unit :=
  if !allowEmptyPrimaryKeys && primaryKeys.isEmpty then
    .error (.wickerSchemaException pkEmptyMsg)
  else
    validatePrimaryKeys cols primaryKeys

/-- The state of a constructed `DatasetSchema`: the synthetic top-level
record, the derived name-to-field index, and the primary keys. -/
structure DatasetSchema where
  schemaRecord : SchemaField
  columns : List (String × SchemaField)
  primaryKeys : List String

/-- The synthetic top-level record that `DatasetSchema.__init__` builds. -/
def schemaRecordOf (fields : List SchemaField) (primaryKeys : List String) : SchemaField :=
  .recordField "fields" "" true [(PRIMARY_KEYS_TAG, jsonDumpsStrList primaryKeys)] fields

/-- `DatasetSchema.__init__`: builds the top-level record (name "fields",
`top_level=True`), derives the column index, then validates. -/
def mkDatasetSchema (fields : List SchemaField) (primaryKeys : List String) (allowEmptyPrimaryKeys : Bool) : Except PyError DatasetSchema :=
  match mkRecordField "fields" fields "" true [(PRIMARY_KEYS_TAG, jsonDumpsStrList primaryKeys)] true with
  | .error e => .error e
  | .ok schemaRecord =>
    match validateSchema (buildColumns fields) primaryKeys allowEmptyPrimaryKeys with
    | .error e => .error e
    | .ok _ => .ok ⟨schemaRecord, buildColumns fields, primaryKeys⟩

/-- `get_all_column_names`. -/
def DatasetSchema.get_all_column_names (s : DatasetSchema) : List String :=
  s.columns.map Prod.fst

/-- `get_column`. -/
def DatasetSchema.get_column (s : DatasetSchema) (columnName : String) : Option SchemaField :=
  lookupDict s.columns columnName

/-- `get_pointer_columns`. -/
def DatasetSchema.get_pointer_columns (s : DatasetSchema) : List String :=
  (s.columns.filter (fun p => isHeavyPointer p.2)).map Prod.fst

/-- `get_non_pointer_columns`. -/
def DatasetSchema.get_non_pointer_columns (s : DatasetSchema) : List String :=
  (s.columns.filter (fun p => !(isHeavyPointer p.2))).map Prod.fst

mutual

/-- The `__eq__` methods of the field classes: `isinstance(other, type(self))`
becomes a match on identical constructors; the base class compares name,
description and required (tags are not compared); `RecordField` adds the
length check and the pairwise `zip` comparison; `ArrayField` compares its
copied name and description and its element; `ObjectField` compares codecs
(its heavy flag is not compared). -/
def beqField : SchemaField → SchemaField → Bool
  | .intField n d r _, .intField n2 d2 r2 _ => n == n2 && d == d2 && r == r2
  | .longField n d r _, .longField n2 d2 r2 _ => n == n2 && d == d2 && r == r2
  | .stringField n d r _, .stringField n2 d2 r2 _ => n == n2 && d == d2 && r == r2
  | .boolField n d r _, .boolField n2 d2 r2 _ => n == n2 && d == d2 && r == r2
  | .floatField n d r _, .floatField n2 d2 r2 _ => n == n2 && d == d2 && r == r2
  | .doubleField n d r _, .doubleField n2 d2 r2 _ => n == n2 && d == d2 && r == r2
  | .recordField n d r _ fs, .recordField n2 d2 r2 _ fs2 =>
      n == n2 && d == d2 && r == r2 && (fs.length == fs2.length) && beqFields fs fs2
  | .arrayField e r, .arrayField e2 r2 =>
      fieldName e == fieldName e2 && fieldDescription e == fieldDescription e2 && r == r2 && beqField e e2
  | .objectField n d r c _, .objectField n2 d2 r2 c2 _ =>
      n == n2 && d == d2 && r == r2 && c == c2
  | _, _ => false

/-- `all([a == b for a, b in zip(xs, ys)])`: `zip` truncates at the shorter
list. -/
def beqFields : List SchemaField → List SchemaField → Bool
  | [], _ => true
  | _ :: _, [] => true
  | f :: fs, g :: gs => beqField f g && beqFields fs gs

end

/-- `DatasetSchema.__eq__`: compares the top-level records and the
primary-key lists. -/
def beqDatasetSchema (a b : DatasetSchema) : Bool :=
  beqField a.schemaRecord b.schemaRecord && a.primaryKeys == b.primaryKeys

/-- Whether an `Except` result is a success, Python construction not raising. -/
def exceptIsOk {α : Type} : Except PyError α → Bool
  | .ok _ => true
  | .error _ => false

/-- The last field of the list carrying a given name, which is the value a
Python dict comprehension keeps for a duplicated key. -/
def lastFieldNamed : List SchemaField → String → Option SchemaField
  | [], _ => none
  | f :: rest, n =>
    match lastFieldNamed rest n with
    | some g => some g
    | none => if fieldName f = n then some f else none

/-- Reference check used to state claim C4: a primary key names an existing
column that is required and of variant Int, Long, String or Bool. -/
def pkOk (cols : List (String × SchemaField)) (key : String) : Bool :=
  match lookupDict cols key with
  | some f => fieldRequired f && isPrimaryKeyType f
  | none => false

/-- Existence phase of the claimed check order for one key. -/
def existCheck (cols : List (String × SchemaField)) (key : String) : Option PyError :=
  match lookupDict cols key with
  | none => some (.wickerSchemaException (pkNotFoundMsg key))
  | some _ => none

/-- Requiredness phase of the claimed check order for one key. -/
def requiredCheck (cols : List (String × SchemaField)) (key : String) : Option PyError :=
  match lookupDict cols key with
  | some f => if fieldRequired f then none else some (.wickerSchemaException (pkNotRequiredMsg key))
  | none => none

/-- Type phase of the claimed check order for one key. -/
def typeCheck (cols : List (String × SchemaField)) (key : String) : Option PyError :=
  match lookupDict cols key with
  | some f => if isPrimaryKeyType f then none else some (.wickerSchemaException (pkBadTypeMsg key))
  | none => none

/-- Emptiness phase of the claimed check order. -/
def emptinessCheck (primaryKeys : List String) (allowEmptyPrimaryKeys : Bool) : Option PyError :=
  if !allowEmptyPrimaryKeys && primaryKeys.isEmpty then some (.wickerSchemaException pkEmptyMsg) else none

/-- For one key, the first failing check among existence, requiredness and
type, in that order. -/
def firstCheck3 (cols : List (String × SchemaField)) (key : String) : Option PyError :=
  match existCheck cols key with
  | some e => some e
  | none =>
    match requiredCheck cols key with
    | some e => some e
    | none => typeCheck cols key

/-- The validation as the spec phrases it: emptiness first, then, for each
key in order, existence, requiredness and type; the first failing check
produces the single error. -/
def validateSpecOrder (cols : List (String × SchemaField)) (primaryKeys : List String) (allowEmptyPrimaryKeys : Bool) : Except PyError Unit :=
  match emptinessCheck primaryKeys allowEmptyPrimaryKeys with
  | some e => .error e
  | none =>
    match primaryKeys.findSome? (firstCheck3 cols) with
    | some e => .error e
    | none => .ok ()

/-- A placeholder schema value, used only to name concrete constructed
schemas via `Except.toOption`. -/
def dummySchema : DatasetSchema :=
  ⟨.intField "x" "" true [], [], []⟩

/-- A concrete codec with a non-empty name. -/
def demoCodec : Codec := ⟨"npy", "\x7b\x7d"⟩

/-- The spec's concrete scenario fields. -/
def demoFields : List SchemaField :=
  [.longField "id" "" true [], .stringField "label" "" true [], .floatField "score" "" true []]

/-- A heavy-pointer object field named "blob". -/
def heavyBlobField : SchemaField := .objectField "blob" "" true demoCodec true

/-- Duplicate-name list where a heavy object field is shadowed by a later
plain field of the same name. -/
def dupHeavyFields : List SchemaField :=
  [.objectField "a" "" true demoCodec true, .intField "a" "" true []]

/-- Duplicate-name list with two distinct fields named "label". -/
def dup2Fields : List SchemaField :=
  [.longField "id" "" true [], .stringField "label" "descA" true [], .stringField "label" "descB" false []]

/-- The scenario fields with one tag changed: pairwise equal to
`demoFields` under `__eq__`, which ignores tags. -/
def demoFields2 : List SchemaField :=
  [.longField "id" "" true [("note", "v")], .stringField "label" "" true [], .floatField "score" "" true []]

/-- The schema the spec's concrete scenario constructs. -/
def demoSchema : DatasetSchema :=
  (mkDatasetSchema demoFields ["id"] false).toOption.getD dummySchema

/-- The schema built from `demoFields2`. -/
def demoSchema2 : DatasetSchema :=
  (mkDatasetSchema demoFields2 ["id"] false).toOption.getD dummySchema

/-- The schema constructed from the duplicate-name list `dup2Fields`. -/
def dup2Schema : DatasetSchema :=
  (mkDatasetSchema dup2Fields ["id"] false).toOption.getD dummySchema

/-- Equality tests with a lawful `BEq` are symmetric. -/
theorem beqComm {α : Type} [BEq α] [LawfulBEq α] (a b : α) : (a == b) = (b == a) := by
  cases hab : a == b <;> cases hba : b == a <;> try rfl
  · simp [eq_of_beq hba] at hab
  · simp [eq_of_beq hab] at hba

mutual

/-- `__eq__` is reflexive on every field. -/
theorem beqField_refl (f : SchemaField) : beqField f f = true := by
  cases f with
  | intField n d r t => simp [beqField]
  | longField n d r t => simp [beqField]
  | stringField n d r t => simp [beqField]
  | boolField n d r t => simp [beqField]
  | floatField n d r t => simp [beqField]
  | doubleField n d r t => simp [beqField]
  | recordField n d r t fs => simp [beqField, beqFields_refl fs]
  | arrayField e r => simp [beqField, beqField_refl e]
  | objectField n d r c h => simp [beqField]

/-- Pairwise field equality is reflexive. -/
theorem beqFields_refl (fs : List SchemaField) : beqFields fs fs = true := by
  cases fs with
  | nil => rfl
  | cons f rest => simp [beqFields, beqField_refl f, beqFields_refl rest]

end

mutual

/-- `__eq__` is symmetric on fields. -/
theorem beqField_symm (f g : SchemaField) : beqField f g = beqField g f := by
  cases f <;> cases g <;>
    first
    | rfl
    | (rename_i n d r t n2 d2 r2 t2
       show (n == n2 && (d == d2) && (r == r2)) = (n2 == n && (d2 == d) && (r2 == r))
       rw [beqComm n n2, beqComm d d2, beqComm r r2])
    | (rename_i n d r t fs n2 d2 r2 t2 fs2
       show (n == n2 && (d == d2) && (r == r2) && (fs.length == fs2.length) && beqFields fs fs2)
          = (n2 == n && (d2 == d) && (r2 == r) && (fs2.length == fs.length) && beqFields fs2 fs)
       rw [beqComm n n2, beqComm d d2, beqComm r r2, beqComm fs.length fs2.length,
           beqFields_symm fs fs2])
    | (rename_i e r e2 r2
       show (fieldName e == fieldName e2 && (fieldDescription e == fieldDescription e2) && (r == r2) && beqField e e2)
          = (fieldName e2 == fieldName e && (fieldDescription e2 == fieldDescription e) && (r2 == r) && beqField e2 e)
       rw [beqComm (fieldName e) (fieldName e2), beqComm (fieldDescription e) (fieldDescription e2),
           beqComm r r2, beqField_symm e e2])
    | (rename_i n d r c h n2 d2 r2 c2 h2
       show (n == n2 && (d == d2) && (r == r2) && (c == c2)) = (n2 == n && (d2 == d) && (r2 == r) && (c2 == c))
       rw [beqComm n n2, beqComm d d2, beqComm r r2, beqComm c c2])

/-- Pairwise field equality is symmetric. -/
theorem beqFields_symm (fs gs : List SchemaField) : beqFields fs gs = beqFields gs fs := by
  cases fs with
  | nil => cases gs <;> rfl
  | cons f fs2 =>
    cases gs with
    | nil => rfl
    | cons g gs2 =>
      show (beqField f g && beqFields fs2 gs2) = (beqField g f && beqFields gs2 fs2)
      rw [beqField_symm f g, beqFields_symm fs2 gs2]

end

/-- Fields of different concrete variants compare unequal. -/
theorem beqField_ne_variant (f g : SchemaField) (h : variantTag f ≠ variantTag g) :
    beqField f g = false := by
  cases f <;> cases g <;> first | rfl | exact absurd rfl h

/-- The name check succeeds exactly when the source regex matches. -/
theorem checkFieldName_ok (n : String) (h : pyNameMatch n = true) : checkFieldName n = .ok () := by
  simp [checkFieldName, h]

/-- The top-level record of a dataset schema always constructs. -/
theorem mkRecordField_top (n : String) (fs : List SchemaField) (d : String) (r : Bool)
    (t : List (String × String)) (h : pyNameMatch n = true) :
    mkRecordField n fs d r t true = .ok (.recordField n d r t fs) := by
  simp [mkRecordField, checkFieldName, h]

/-- `DatasetSchema.__init__` reduced to its validation step. -/
theorem mkDatasetSchema_eq (fs : List SchemaField) (pks : List String) (flag : Bool) :
    mkDatasetSchema fs pks flag =
      match validateSchema (buildColumns fs) pks flag with
      | .error e => .error e
      | .ok _ => .ok ⟨schemaRecordOf fs pks, buildColumns fs, pks⟩ := by
  have h := mkRecordField_top "fields" fs "" true [(PRIMARY_KEYS_TAG, jsonDumpsStrList pks)] (by decide)
  simp only [mkDatasetSchema, h, schemaRecordOf]

/-- Shape of every successfully constructed dataset schema. -/
theorem mkDatasetSchema_ok {fs : List SchemaField} {pks : List String} {flag : Bool}
    {s : DatasetSchema} (h : mkDatasetSchema fs pks flag = .ok s) :
    s = ⟨schemaRecordOf fs pks, buildColumns fs, pks⟩ := by
  rw [mkDatasetSchema_eq] at h
  cases hv : validateSchema (buildColumns fs) pks flag with
  | error e => rw [hv] at h; cases h
  | ok u => rw [hv] at h; cases h; rfl

/-- Every error of a failed dataset-schema construction comes from
`_validate_schema`. -/
theorem mkDatasetSchema_error {fs : List SchemaField} {pks : List String} {flag : Bool}
    {e : PyError} (h : mkDatasetSchema fs pks flag = .error e) :
    validateSchema (buildColumns fs) pks flag = .error e := by
  rw [mkDatasetSchema_eq] at h
  cases hv : validateSchema (buildColumns fs) pks flag with
  | error e2 => rw [hv] at h; cases h; rfl
  | ok u => rw [hv] at h; cases h

/-- The per-key loop succeeds exactly when every key passes the three checks. -/
theorem validatePrimaryKeys_ok_iff (cols : List (String × SchemaField)) (pks : List String) :
    validatePrimaryKeys cols pks = .ok () ↔ pks.all (pkOk cols) = true := by
  induction pks with
  | nil => simp [validatePrimaryKeys]
  | cons k rest ih =>
    simp only [validatePrimaryKeys, List.all_cons, Bool.and_eq_true, pkOk]
    cases h : lookupDict cols k with
    | none => simp
    | some f =>
      cases hr : fieldRequired f <;> cases ht : isPrimaryKeyType f <;> simp [hr, ht, ih]

/-- Every error of the per-key loop is a `WickerSchemaException`. -/
theorem validatePrimaryKeys_error_isWicker (cols : List (String × SchemaField)) :
    ∀ pks e, validatePrimaryKeys cols pks = .error e → e.isWicker = true := by
  intro pks
  induction pks with
  | nil => intro e h; cases h
  | cons k rest ih =>
    intro e h
    simp only [validatePrimaryKeys] at h
    cases hl : lookupDict cols k with
    | none => simp only [hl] at h; cases h; rfl
    | some f =>
      simp only [hl] at h
      cases hr : fieldRequired f <;> simp [hr] at h
      · cases h; rfl
      · cases ht : isPrimaryKeyType f <;> simp [ht] at h
        · cases h; rfl
        · exact ih e h

/-- Every error of `_validate_schema` is a `WickerSchemaException`. -/
theorem validateSchema_error_isWicker (cols : List (String × SchemaField)) (pks : List String)
    (flag : Bool) (e : PyError) (h : validateSchema cols pks flag = .error e) :
    e.isWicker = true := by
  simp only [validateSchema] at h
  cases hc : (!flag && pks.isEmpty) <;> rw [hc] at h
  · simp at h; exact validatePrimaryKeys_error_isWicker cols pks e h
  · simp at h; cases h; rfl

/-- `_validate_schema` succeeds exactly when the keys are valid, once the
emptiness rule is out of the way. -/
theorem validateSchema_ok_iff (cols : List (String × SchemaField)) (pks : List String)
    (flag : Bool) (h : flag = true ∨ pks ≠ []) :
    validateSchema cols pks flag = .ok () ↔ pks.all (pkOk cols) = true := by
  have hc : (!flag && pks.isEmpty) = false := by
    rcases h with h | h
    · rw [h]; rfl
    · cases pks with
      | nil => exact absurd rfl h
      | cons a l => simp [List.isEmpty]
  simp only [validateSchema, hc, Bool.false_eq_true, if_false]
  exact validatePrimaryKeys_ok_iff cols pks

/-- Success of dataset-schema construction is success of validation. -/
theorem mkDatasetSchema_isOk_iff (fs : List SchemaField) (pks : List String) (flag : Bool) :
    exceptIsOk (mkDatasetSchema fs pks flag) = true ↔
      validateSchema (buildColumns fs) pks flag = .ok () := by
  rw [mkDatasetSchema_eq]
  cases hv : validateSchema (buildColumns fs) pks flag with
  | error e => simp [exceptIsOk]
  | ok u => cases u; simp [exceptIsOk]

/-- Looking up after a dict insertion: the inserted key wins, others are
unchanged. -/
theorem lookupDict_dictInsert (d : List (String × SchemaField)) (k : String) (v : SchemaField)
    (q : String) :
    lookupDict (dictInsert d k v) q = if k = q then some v else lookupDict d q := by
  induction d with
  | nil => simp [dictInsert, lookupDict]
  | cons p rest ih =>
    obtain ⟨k3, v3⟩ := p
    by_cases h3 : k3 = k
    · subst h3
      by_cases hq : k3 = q <;> simp [dictInsert, lookupDict, hq]
    · by_cases hq : k3 = q
      · subst hq
        have hkq : ¬k = k3 := fun e => h3 e.symm
        simp [dictInsert, lookupDict, h3, hkq]
      · simp [dictInsert, lookupDict, h3, hq, ih]

/-- A lookup misses exactly when the key is not among the dict's keys. -/
theorem lookupDict_eq_none_iff (d : List (String × SchemaField)) (q : String) :
    lookupDict d q = none ↔ q ∉ d.map Prod.fst := by
  induction d with
  | nil => simp [lookupDict]
  | cons p rest ih =>
    obtain ⟨k3, v3⟩ := p
    by_cases h3 : k3 = q
    · subst h3; simp [lookupDict]
    · simp [lookupDict, h3, ih, Ne.symm h3]

/-- Inserting a fresh key appends it at the end. -/
theorem dictInsert_fresh (d : List (String × SchemaField)) (k : String) (v : SchemaField)
    (h : lookupDict d k = none) : dictInsert d k v = d ++ [(k, v)] := by
  induction d with
  | nil => rfl
  | cons p rest ih =>
    obtain ⟨k3, v3⟩ := p
    simp only [lookupDict] at h
    by_cases h3 : k3 = k
    · simp [h3] at h
    · simp only [h3, if_false] at h
      simp [dictInsert, h3, ih h]

/-- The keys after an insertion: unchanged for a present key, appended for a
fresh one. -/
theorem keys_dictInsert (d : List (String × SchemaField)) (k : String) (v : SchemaField) :
    (dictInsert d k v).map Prod.fst =
      if (lookupDict d k).isNone then d.map Prod.fst ++ [k] else d.map Prod.fst := by
  induction d with
  | nil => simp [dictInsert, lookupDict]
  | cons p rest ih =>
    obtain ⟨k3, v3⟩ := p
    by_cases h3 : k3 = k
    · simp [dictInsert, lookupDict, h3]
    · simp only [dictInsert, lookupDict, h3, if_false, List.map_cons, ih]
      cases hn : (lookupDict rest k).isNone <;> simp [hn]

/-- Dict insertion preserves distinctness of the keys. -/
theorem keys_nodup_dictInsert (d : List (String × SchemaField)) (k : String) (v : SchemaField)
    (h : (d.map Prod.fst).Nodup) : ((dictInsert d k v).map Prod.fst).Nodup := by
  rw [keys_dictInsert]
  cases hn : (lookupDict d k).isNone with
  | false => simpa [hn] using h
  | true =>
    have hmem : k ∉ d.map Prod.fst := by
      rw [← lookupDict_eq_none_iff]
      cases hl : lookupDict d k with
      | none => rfl
      | some f => rw [hl] at hn; cases hn
    simp [hn, List.nodup_append, h, hmem]

/-- The column index of any field list has distinct keys. -/
theorem buildColumns_keys_nodup (fs : List SchemaField) :
    ((buildColumns fs).map Prod.fst).Nodup := by
  have aux : ∀ (l : List SchemaField) (d : List (String × SchemaField)),
      (d.map Prod.fst).Nodup →
      ((l.foldl (fun d f => dictInsert d (fieldName f) f) d).map Prod.fst).Nodup := by
    intro l
    induction l with
    | nil => intro d h; simpa using h
    | cons f rest ih =>
      intro d h
      exact ih (dictInsert d (fieldName f) f) (keys_nodup_dictInsert d (fieldName f) f h)
  exact aux fs [] (by simp)

/-- Folding insertions over a list: the last field of a given name wins,
and an absent name falls back to the starting dict. -/
theorem lookup_foldl_dictInsert :
    ∀ (fs : List SchemaField) (d : List (String × SchemaField)) (q : String),
      lookupDict (fs.foldl (fun d f => dictInsert d (fieldName f) f) d) q =
        match lastFieldNamed fs q with
        | some g => some g
        | none => lookupDict d q := by
  intro fs
  induction fs with
  | nil => intro d q; rfl
  | cons f rest ih =>
    intro d q
    simp only [List.foldl_cons, ih (dictInsert d (fieldName f) f) q, lastFieldNamed]
    cases hr : lastFieldNamed rest q with
    | some g => rfl
    | none =>
      simp only [lookupDict_dictInsert]
      by_cases hf : fieldName f = q <;> simp [hf]

/-- Looking a name up in the column index finds the last field of that name,
Python's overwrite-on-duplicate dict semantics. -/
theorem lookup_buildColumns (fs : List SchemaField) (q : String) :
    lookupDict (buildColumns fs) q = lastFieldNamed fs q := by
  rw [buildColumns, lookup_foldl_dictInsert fs [] q]
  cases hr : lastFieldNamed fs q <;> rfl

/-- When the names are distinct the column index is the field list paired
with its names, in order. -/
theorem buildColumns_of_nodup (fs : List SchemaField) (h : (fs.map fieldName).Nodup) :
    buildColumns fs = fs.map (fun f => (fieldName f, f)) := by
  have aux : ∀ (l : List SchemaField) (d : List (String × SchemaField)),
      (l.map fieldName).Nodup →
      (∀ f ∈ l, lookupDict d (fieldName f) = none) →
      l.foldl (fun d f => dictInsert d (fieldName f) f) d = d ++ l.map (fun f => (fieldName f, f)) := by
    intro l
    induction l with
    | nil => intro d _ _; simp
    | cons f rest ih =>
      intro d hnd hfresh
      have hfr : lookupDict d (fieldName f) = none := hfresh f (by simp)
      have hnd2 : (rest.map fieldName).Nodup := by
        simp only [List.map_cons, List.nodup_cons] at hnd
        exact hnd.2
      have hne : ∀ g ∈ rest, fieldName g ≠ fieldName f := by
        intro g hg he
        simp only [List.map_cons, List.nodup_cons] at hnd
        exact hnd.1 (he ▸ List.mem_map_of_mem fieldName hg)
      have hfresh2 : ∀ g ∈ rest, lookupDict (dictInsert d (fieldName f) f) (fieldName g) = none := by
        intro g hg
        rw [lookupDict_dictInsert]
        simp [Ne.symm (hne g hg), hfresh g (List.mem_cons_of_mem f hg)]
      rw [List.foldl_cons, ih (dictInsert d (fieldName f) f) hnd2 hfresh2,
        dictInsert_fresh d (fieldName f) f hfr]
      simp
  have := aux fs [] h (by intro f _; rfl)
  simpa [buildColumns] using this

/-- Filtering the paired column list and taking the names is filtering the
fields and taking the names. -/
theorem filter_map_pair (fs : List SchemaField) (p : SchemaField → Bool) :
    ((fs.map (fun f => (fieldName f, f))).filter (fun q => p q.2)).map Prod.fst =
      (fs.filter p).map fieldName := by
  induction fs with
  | nil => rfl
  | cons f rest ih =>
    cases hp : p f <;> simp [List.filter_cons, hp, ih]

/-- The source loop equals the spec-ordered first-failing-check function. -/
theorem validatePrimaryKeys_eq_findSome (cols : List (String × SchemaField)) :
    ∀ pks : List String,
      validatePrimaryKeys cols pks =
        match pks.findSome? (firstCheck3 cols) with
        | some e => .error e
        | none => .ok () := by
  intro pks
  induction pks with
  | nil => rfl
  | cons k rest ih =>
    simp only [validatePrimaryKeys, List.findSome?_cons]
    cases hl : lookupDict cols k with
    | none => simp [firstCheck3, existCheck, hl]
    | some f =>
      cases hr : fieldRequired f <;> cases ht : isPrimaryKeyType f <;>
        simp [firstCheck3, existCheck, requiredCheck, typeCheck, hl, hr, ht, ih]

/-- A failed name check always carries the fixed `ValueError`. -/
theorem checkFieldName_error {n : String} {e : PyError} (h : checkFieldName n = .error e) :
    e = PyError.valueError nameErrorMsg := by
  simp only [checkFieldName] at h
  cases hp : pyNameMatch n <;> simp [hp] at h
  exact h.symm

/-- C1: the claim says names are accepted exactly when they match
`^[A-Za-z][A-Za-z0-9_]*$` and rejected otherwise; the code is a slip:
Python's `$` also matches just before a single trailing newline, so
`"a\n"`, which the grammar (and the code's own error message) rejects,
constructs successfully.  The remaining conjuncts show the check otherwise
behaves as claimed on representative names. -/
theorem c1_name_grammar_code_bug :
    exceptIsOk (mkStringField "a\n" "" true []) = true
    ∧ specNameGrammar "a\n" = false
    ∧ exceptIsOk (mkStringField "abc_1" "" true []) = true
    ∧ exceptIsOk (mkStringField "" "" true []) = false
    ∧ exceptIsOk (mkStringField "1bad" "" true []) = false
    ∧ exceptIsOk (mkStringField "_bad" "" true []) = false
    ∧ exceptIsOk (mkStringField "bad-char" "" true []) = false :=
  ⟨rfl, rfl, rfl, rfl, rfl, rfl, rfl⟩

/-- C2 counterexample: a field-name failure raises `ValueError`, which is
not the `WickerSchemaException` kind (the spec's `SchemaValidationError`),
so the module does not use a single error kind. -/
theorem c2_counterexample :
    mkIntField "1bad" "" true [] = Except.error (PyError.valueError nameErrorMsg)
    ∧ PyError.isWicker (PyError.valueError nameErrorMsg) = false :=
  ⟨rfl, rfl⟩

/-- C2 amended: the module uses two error kinds: the field-name grammar
raises `ValueError` with a fixed message, while heavy-pointer nesting,
codec-name emptiness and every primary-key failure raise
`WickerSchemaException`; all are raised from constructors (the accessors
are total functions in this embedding and cannot raise). -/
theorem c2_amended_two_error_kinds :
    (∀ n d r t e, mkIntField n d r t = .error e → e = PyError.valueError nameErrorMsg)
    ∧ (∀ n fs d r t e, pyNameMatch n = true → mkRecordField n fs d r t false = .error e →
        e.isWicker = true)
    ∧ (∀ n c d r h, c.codecName = "" →
        mkObjectField n c d r h = .error (.wickerSchemaException codecEmptyMsg))
    ∧ (∀ fs pks flag e, mkDatasetSchema fs pks flag = .error e → e.isWicker = true) := by
  refine ⟨?_, ?_, ?_, ?_⟩
  · intro n d r t e h
    simp only [mkIntField] at h
    cases hc : checkFieldName n with
    | error e2 => simp only [hc] at h; cases h; exact checkFieldName_error hc
    | ok u => simp only [hc] at h; cases h
  · intro n fs d r t e hn h
    simp only [mkRecordField, checkFieldName_ok n hn] at h
    cases ha : fs.any isHeavyPointer <;> simp [ha] at h
    cases h; rfl
  · intro n c d r h hc
    simp [mkObjectField, hc]
  · intro fs pks flag e h
    exact validateSchema_error_isWicker _ _ _ _ (mkDatasetSchema_error h)

/-- C2 witness: the amended theorem applied to an empty primary-key failure
and to a concrete heavy-pointer nesting failure. -/
theorem c2_witness :
    PyError.isWicker (PyError.wickerSchemaException pkEmptyMsg) = true
    ∧ PyError.isWicker (PyError.wickerSchemaException (heavyPointerMsg [heavyBlobField])) = true := by
  constructor
  · exact c2_amended_two_error_kinds.2.2.2 [] [] false
      (PyError.wickerSchemaException pkEmptyMsg) rfl
  · exact c2_amended_two_error_kinds.2.1 "nested" [heavyBlobField] "" true []
      (PyError.wickerSchemaException (heavyPointerMsg [heavyBlobField])) (by decide) rfl

/-- C3 counterexample: a non-top-level record whose own name is invalid and
whose children include a heavy pointer fails with the name `ValueError`,
whose message does not list the offending children, so the claim's
universal form fails. -/
theorem c3_counterexample :
    mkRecordField "1bad" [heavyBlobField] "" true [] false
      = Except.error (PyError.valueError nameErrorMsg)
    ∧ PyError.valueError nameErrorMsg
        ≠ PyError.wickerSchemaException (heavyPointerMsg [heavyBlobField]) :=
  ⟨rfl, by decide⟩

/-- C3 amended: provided the record's own name passes the name grammar, a
non-top-level record fails exactly when some direct child is a heavy
pointer, and the single error message lists the names of exactly the
heavy-pointer children; with `top_level = true` construction always
succeeds regardless of heavy children. -/
theorem c3_amended_heavy_nesting :
    ∀ n fs d r t, pyNameMatch n = true →
      ((∀ e, mkRecordField n fs d r t false = .error e ↔
          (fs.any isHeavyPointer = true
           ∧ e = PyError.wickerSchemaException (heavyPointerMsg fs)))
       ∧ mkRecordField n fs d r t true = .ok (.recordField n d r t fs)) := by
  intro n fs d r t hn
  constructor
  · intro e
    simp only [mkRecordField, checkFieldName_ok n hn]
    cases ha : fs.any isHeavyPointer <;> simp [ha, eq_comm]
  · exact mkRecordField_top n fs d r t hn

/-- C3 witness: the spec's concrete scenario, a record named "nested" with
one heavy child "blob". -/
theorem c3_witness :
    mkRecordField "nested" [heavyBlobField] "" true [] false
      = Except.error (PyError.wickerSchemaException (heavyPointerMsg [heavyBlobField]))
    ∧ mkRecordField "nested" [heavyBlobField] "" true [] true
      = Except.ok (.recordField "nested" "" true [] [heavyBlobField]) := by
  have h := c3_amended_heavy_nesting "nested" [heavyBlobField] "" true [] (by decide)
  exact ⟨(h.1 _).mpr ⟨rfl, rfl⟩, h.2⟩

/-- C4 counterexample: with an empty primary-key list and the escape flag
unset, every primary key vacuously satisfies the claimed per-key success
condition yet construction fails (the emptiness rule fires first), so the
claim's success direction fails as universally stated. -/
theorem c4_counterexample :
    ([] : List String).all (pkOk (buildColumns demoFields)) = true
    ∧ exceptIsOk (mkDatasetSchema demoFields [] false) = false :=
  ⟨rfl, rfl⟩

/-- C4 amended: once the emptiness rule is out of the way (non-empty keys,
or the escape flag set), construction succeeds exactly when every primary
key names an existing column that is required and of variant Int, Long,
String or Bool; in particular Float and Double columns are rejected. -/
theorem c4_amended_primary_key_rules :
    ∀ fs pks flag, (flag = true ∨ pks ≠ []) →
      (exceptIsOk (mkDatasetSchema fs pks flag) = true
        ↔ pks.all (pkOk (buildColumns fs)) = true) := by
  intro fs pks flag h
  rw [mkDatasetSchema_isOk_iff]
  exact validateSchema_ok_iff _ _ _ h

/-- C4 witness: the spec scenario: keys `["id"]` (a required Long) succeed,
keys `["score"]` (a Float) fail. -/
theorem c4_witness :
    exceptIsOk (mkDatasetSchema demoFields ["id"] false) = true
    ∧ exceptIsOk (mkDatasetSchema demoFields ["score"] false) = false := by
  constructor
  · exact (c4_amended_primary_key_rules demoFields ["id"] false (Or.inr (by simp))).mpr (by decide)
  · have h := c4_amended_primary_key_rules demoFields ["score"] false (Or.inr (by simp))
    cases hv : exceptIsOk (mkDatasetSchema demoFields ["score"] false) with
    | true => exact absurd (h.mp hv) (by decide)
    | false => rfl

/-- C5: `_validate_schema` equals the first-failing-check function built
from the claimed order: emptiness first, then, key by key in list order,
existence, requiredness and type; the `Except` result carries exactly one
error, so validation is fail-fast and not cumulative. -/
theorem c5_fail_fast_order :
    ∀ cols pks flag, validateSchema cols pks flag = validateSpecOrder cols pks flag := by
  intro cols pks flag
  simp only [validateSchema, validateSpecOrder, emptinessCheck]
  cases hE : (!flag && pks.isEmpty) <;>
    simp [hE, validatePrimaryKeys_eq_findSome cols pks]

/-- C6: an empty primary-key list fails construction when the escape flag
is unset, with the fixed emptiness message, and succeeds when the flag is
set, whatever the fields. -/
theorem c6_empty_primary_keys :
    ∀ fs, mkDatasetSchema fs [] false = Except.error (PyError.wickerSchemaException pkEmptyMsg)
      ∧ exceptIsOk (mkDatasetSchema fs [] true) = true := by
  intro fs
  constructor
  · rw [mkDatasetSchema_eq]; rfl
  · rw [mkDatasetSchema_isOk_iff]; rfl

/-- C7: field equality is reflexive, symmetric and total (it is a Lean
function into `Bool`, so it never raises); different variants are never
equal; each variant's equality is exactly name, description and required
plus the variant payload (tags are ignored; `Record` compares lengths and
members pairwise, `Array` its copied name and description and its element,
`Object` its codec and not its heavy flag); and two schemas built from
pairwise-equal field lists with the same primary keys are equal. -/
theorem c7_structural_equality :
    (∀ f, beqField f f = true)
    ∧ (∀ f g, beqField f g = beqField g f)
    ∧ (∀ f g, variantTag f ≠ variantTag g → beqField f g = false)
    ∧ (∀ n d r t n2 d2 r2 t2,
        beqField (.intField n d r t) (.intField n2 d2 r2 t2)
          = (n == n2 && (d == d2) && (r == r2)))
    ∧ (∀ n d r t fs n2 d2 r2 t2 fs2,
        beqField (.recordField n d r t fs) (.recordField n2 d2 r2 t2 fs2)
          = (n == n2 && (d == d2) && (r == r2) && (fs.length == fs2.length) && beqFields fs fs2))
    ∧ (∀ e r e2 r2,
        beqField (.arrayField e r) (.arrayField e2 r2)
          = (fieldName e == fieldName e2 && (fieldDescription e == fieldDescription e2)
              && (r == r2) && beqField e e2))
    ∧ (∀ n d r c h n2 d2 r2 c2 h2,
        beqField (.objectField n d r c h) (.objectField n2 d2 r2 c2 h2)
          = (n == n2 && (d == d2) && (r == r2) && (c == c2)))
    ∧ (∀ fs fs2 pks flag s s2,
        mkDatasetSchema fs pks flag = .ok s → mkDatasetSchema fs2 pks flag = .ok s2 →
        fs.length = fs2.length → beqFields fs fs2 = true → beqDatasetSchema s s2 = true) := by
  refine ⟨beqField_refl, beqField_symm, beqField_ne_variant,
    fun n d r t n2 d2 r2 t2 => rfl,
    fun n d r t fs n2 d2 r2 t2 fs2 => rfl,
    fun e r e2 r2 => rfl,
    fun n d r c h n2 d2 r2 c2 h2 => rfl,
    ?_⟩
  intro fs fs2 pks flag s s2 h1 h2 hlen hbeq
  rw [mkDatasetSchema_ok h1, mkDatasetSchema_ok h2]
  simp [beqDatasetSchema, schemaRecordOf, beqField, hlen, hbeq]

/-- C7 witness: two different variants with identical metadata are unequal,
and two concrete schemas with pairwise-equal fields (differing only in
tags) are equal. -/
theorem c7_witness :
    beqField (SchemaField.intField "a" "" true []) (SchemaField.longField "a" "" true []) = false
    ∧ beqDatasetSchema demoSchema demoSchema2 = true := by
  constructor
  · exact c7_structural_equality.2.2.1 _ _ (by decide)
  · exact c7_structural_equality.2.2.2.2.2.2.2 demoFields demoFields2 ["id"] false
      demoSchema demoSchema2 rfl rfl rfl (by decide)

/-- C8 counterexample: an object field with an invalid field name but a
non-empty codec name still fails construction, so construction does not
fail only when the codec name is empty. -/
theorem c8_counterexample :
    mkObjectField "1bad" demoCodec "" true true = Except.error (PyError.valueError nameErrorMsg)
    ∧ demoCodec.codecName ≠ "" :=
  ⟨rfl, by decide⟩

/-- C8 amended: provided the field name passes the name grammar, object
construction fails exactly when the codec's name is empty (with the fixed
message), and on success the field carries exactly the three synthetic
tags: the metatype marker, the codec's serialized parameters and the
codec's name. -/
theorem c8_amended_object_construction :
    ∀ n c d r h, pyNameMatch n = true →
      ((∀ e, mkObjectField n c d r h = .error e ↔
          (c.codecName = "" ∧ e = PyError.wickerSchemaException codecEmptyMsg))
       ∧ (∀ fld, mkObjectField n c d r h = .ok fld →
            fld = .objectField n d r c h
            ∧ fieldCustomTags fld =
                [("_l5ml_metatype", "object"), ("_codec_params", c.codecParams),
                 ("_codec_name", c.codecName)])) := by
  intro n c d r h hn
  constructor
  · intro e
    by_cases hc : c.codecName = ""
    · simp [mkObjectField, hc, eq_comm]
    · simp [mkObjectField, hc, checkFieldName_ok n hn]
  · intro fld hok
    by_cases hc : c.codecName = ""
    · simp [mkObjectField, hc] at hok
    · simp only [mkObjectField, hc, if_false, checkFieldName_ok n hn] at hok
      cases hok
      exact ⟨rfl, rfl⟩

/-- C8 witness: the amended theorem at a concrete codec named "npy". -/
theorem c8_witness :
    fieldCustomTags (SchemaField.objectField "blob" "" true demoCodec true) =
      [("_l5ml_metatype", "object"), ("_codec_params", demoCodec.codecParams),
       ("_codec_name", demoCodec.codecName)] :=
  ((c8_amended_object_construction "blob" demoCodec "" true true (by decide)).2 _ rfl).2

/-- C9 counterexample: with duplicate top-level names a heavy object field
shadowed by a later plain field of the same name disappears from the
column index, so `get_pointer_columns` misses a heavy top-level field. -/
theorem c9_counterexample :
    (mkDatasetSchema dupHeavyFields ["a"] false).map DatasetSchema.get_pointer_columns
      = Except.ok []
    ∧ (dupHeavyFields.filter isHeavyPointer).map fieldName = ["a"] :=
  ⟨rfl, rfl⟩

/-- C9 amended: provided the top-level names are distinct (otherwise the
later duplicate wins in the column index), `get_pointer_columns` is
exactly the names of the heavy-pointer top-level fields and
`get_non_pointer_columns` the complement; the spec's concrete scenario
holds as stated. -/
theorem c9_amended_pointer_columns :
    (∀ fs pks flag s, mkDatasetSchema fs pks flag = .ok s → (fs.map fieldName).Nodup →
        s.get_pointer_columns = (fs.filter isHeavyPointer).map fieldName
        ∧ s.get_non_pointer_columns = (fs.filter (fun f => !(isHeavyPointer f))).map fieldName)
    ∧ exceptIsOk (mkDatasetSchema demoFields ["id"] false) = true
    ∧ (mkDatasetSchema demoFields ["id"] false).map DatasetSchema.get_pointer_columns
        = Except.ok []
    ∧ (mkDatasetSchema demoFields ["id"] false).map DatasetSchema.get_non_pointer_columns
        = Except.ok ["id", "label", "score"] := by
  refine ⟨?_, rfl, rfl, rfl⟩
  intro fs pks flag s h hnd
  rw [mkDatasetSchema_ok h]
  constructor
  · show ((buildColumns fs).filter (fun p => isHeavyPointer p.2)).map Prod.fst = _
    rw [buildColumns_of_nodup fs hnd]
    exact filter_map_pair fs isHeavyPointer
  · show ((buildColumns fs).filter (fun p => !(isHeavyPointer p.2))).map Prod.fst = _
    rw [buildColumns_of_nodup fs hnd]
    exact filter_map_pair fs (fun f => !(isHeavyPointer f))

/-- C9 witness: the general pointer-column law applied to the spec's
concrete scenario. -/
theorem c9_witness :
    demoSchema.get_pointer_columns = (demoFields.filter isHeavyPointer).map fieldName
    ∧ demoSchema.get_non_pointer_columns
        = (demoFields.filter (fun f => !(isHeavyPointer f))).map fieldName :=
  c9_amended_pointer_columns.1 demoFields ["id"] false demoSchema rfl (by decide)

/-- C10: construction performs no uniqueness check: success depends only on
primary-key validation against the (last-wins) column index; on success
the column names are listed without repetition, `get_column` returns the
last field of the given name, and returns `none` (never an error) for a
name that is absent. -/
theorem c10_no_uniqueness_check :
    (∀ fs pks flag s, mkDatasetSchema fs pks flag = .ok s →
        s.get_all_column_names.Nodup
        ∧ (∀ n, s.get_column n = lastFieldNamed fs n)
        ∧ (∀ n, s.get_column n ≠ none → n ∈ s.get_all_column_names))
    ∧ (∀ fs pks flag, (flag = true ∨ pks ≠ []) →
        pks.all (pkOk (buildColumns fs)) = true →
        exceptIsOk (mkDatasetSchema fs pks flag) = true) := by
  constructor
  · intro fs pks flag s h
    rw [mkDatasetSchema_ok h]
    refine ⟨buildColumns_keys_nodup fs, fun n => lookup_buildColumns fs n, ?_⟩
    intro n hn
    show n ∈ (buildColumns fs).map Prod.fst
    by_contra hmem
    exact hn ((lookupDict_eq_none_iff _ _).mpr hmem)
  · intro fs pks flag h hall
    rw [mkDatasetSchema_isOk_iff]
    exact (validateSchema_ok_iff _ _ _ h).mpr hall

/-- C10 witness: a field list with two distinct fields named "label"
constructs successfully; the name is listed once, lookup returns the later
field, and a missing name returns `none`. -/
theorem c10_witness :
    dup2Schema.get_all_column_names.Nodup
    ∧ dup2Schema.get_column "label" = lastFieldNamed dup2Fields "label"
    ∧ dup2Schema.get_column "label" = some (.stringField "label" "descB" false [])
    ∧ dup2Schema.get_column "missing" = none
    ∧ exceptIsOk (mkDatasetSchema dup2Fields ["id"] false) = true := by
  have h := c10_no_uniqueness_check.1 dup2Fields ["id"] false dup2Schema rfl
  exact ⟨h.1, h.2.1 "label", rfl, rfl,
    c10_no_uniqueness_check.2 dup2Fields ["id"] false (Or.inr (by simp)) (by decide)⟩

end Wicker
